import Mathlib

/-!
Shallow embedding of the fastapi-data-extractor extraction pipeline.

Each definition mirrors a Python function or class of the repository:
  * `InputType`, `ExtractionRequest`, `ExtractionResult`   — app/models/{base,requests,responses}.py
  * `ContentScraper.*`                                     — app/core/content_scraper.py
  * `FileManager.*`, `SHA256.*`                            — app/core/file_manager.py (hashlib.sha256)
  * `SchemaRegistry.*`, `ExtractionEngine.*`               — app/services/schema_registry.py,
                                                             app/core/extraction_engine.py
  * `Storage.*`                                            — app/core/storage/*
  * `ExtractionService.*`                                  — app/services/extraction_service.py

External effects (OpenAI calls, the YouTube transcript API, base64 decoding,
the filesystem) are modelled by explicit oracle parameters and an explicit
`Store` of existing file paths; Python exceptions are modelled with
`Except String`.
-/

namespace Extractor

/-- A JSON-like value, standing for Python `Dict[str, Any]` payloads. -/
inductive Json where
  | null : Json
  | str : String → Json
  | num : Int → Json
  | bool : Bool → Json
  | arr : List Json → Json
  | obj : List (String × Json) → Json
  deriving Repr

/-- Contents of a file on disk or in object storage: text, serialized JSON,
or opaque bytes (decoded audio payloads). -/
inductive FileData where
  | text : String → FileData
  | json : Json → FileData
  | bin : FileData
  deriving Repr

/-- The files that currently exist (path and contents), plus a counter used
to produce fresh temporary-file names (mirroring `tempfile.NamedTemporaryFile`). -/
structure Store where
  files : List (String × FileData)
  counter : Nat
  deriving Repr

/-- The paths of the files that currently exist. -/
def Store.paths (st : Store) : List String := st.files.map (fun f => f.1)

/-- Python `os.path.exists` / `os.path.isfile` over the modelled store. -/
def Store.hasFile (st : Store) (p : String) : Bool := st.paths.contains p

/-- An effectful operation over the file store that may raise an exception. -/
abbrev Eff (α : Type) := Store → Except String α × Store

/-- Token usage dictionary returned by the extraction engine
(`prompt_tokens` / `completion_tokens` / `total_tokens`). -/
abbrev TokenUsage := List (String × Nat)

/-- InputType enum from app/models/base.py: exactly four members. -/
inductive InputType where
  | text : InputType
  | url : InputType
  | image : InputType
  | youtube_url : InputType
  deriving Repr, DecidableEq

/-- The string value of each `InputType` member. -/
def InputType.toValue : InputType → String
  | .text => "text"
  | .url => "url"
  | .image => "image"
  | .youtube_url => "youtube_url"

/-- Pydantic coercion of a request string into the `InputType` enum:
succeeds exactly on the four member values. -/
def InputType.ofString (s : String) : Option InputType :=
  if s = "text" then some .text
  else if s = "url" then some .url
  else if s = "image" then some .image
  else if s = "youtube_url" then some .youtube_url
  else none

/-- A validated `ExtractionRequest` (app/models/requests.py). -/
structure ExtractionRequest where
  input_type : InputType
  content : String
  extraction_type : String
  save_markdown : Bool := false
  save_json : Bool := true
  output_directory : Option String := none
  filenamePrefix : Option String := none
  custom_instructions : Option String := none
  deriving Repr, DecidableEq

/-- Python whitespace as `str.strip` removes it (ASCII subset). -/
def isPySpace (c : Char) : Bool :=
  c = ' ' || c = '\t' || c = '\n' || c = '\r' || c = '\x0b' || c = '\x0c'

/-- Python `s.strip()`. -/
def pyStrip (s : String) : String :=
  String.mk (((s.data.dropWhile isPySpace).reverse.dropWhile isPySpace).reverse)

/-- ExtractionRequest.validate_content: rejects empty / whitespace-only
content with `ValueError("Content cannot be empty")`, otherwise stores the
stripped content. -/
def validateContent (v : String) : Except String String :=
  if pyStrip v = "" then .error "Content cannot be empty" else .ok (pyStrip v)

/-- Pydantic construction of an `ExtractionRequest` from raw field values:
the enum coercion of `input_type` and the `validate_content` field validator
both run before any request processing. -/
def mkExtractionRequest (input_type content extraction_type : String)
    (save_markdown save_json : Bool)
    (output_directory filenamePrefix custom_instructions : Option String) :
    Except String ExtractionRequest :=
  match InputType.ofString input_type with
  | none => .error "Input should be 'text', 'url', 'image' or 'youtube_url'"
  | some t =>
    match validateContent content with
    | .error e => .error e
    | .ok c =>
      .ok { input_type := t, content := c, extraction_type := extraction_type,
            save_markdown := save_markdown, save_json := save_json,
            output_directory := output_directory, filenamePrefix := filenamePrefix,
            custom_instructions := custom_instructions }

/-- ExtractionResult record from app/models/responses.py. -/
structure ExtractionResult where
  success : Bool
  extraction_type : String
  extracted_data : Option Json := none
  markdown_path : Option String := none
  json_path : Option String := none
  processing_time : Nat
  timestamp : String := ""
  token_usage : Option TokenUsage := none
  error_message : Option String := none
  warnings : List String := []
  deriving Repr

/-- The acquisition branch selected by `ContentScraper.fetch_content`. -/
inductive Branch where
  | text : Branch
  | url : Branch
  | image : Branch
  | youtube : Branch
  | audio : Branch
  deriving Repr, DecidableEq

/-- The if/elif dispatch of `ContentScraper.fetch_content`
(app/core/content_scraper.py, lines 45-63) on the input-type string. -/
def fetchContentBranch (input_type : String) : Except String Branch :=
  if input_type = "text" then .ok .text
  else if input_type = "url" then .ok .url
  else if input_type = "image" then .ok .image
  else if input_type = "youtube_url" then .ok .youtube
  else if input_type = "audio" then .ok .audio
  else .error ("Unsupported input type: " ++ input_type)

/- SHA-256, modelling Python hashlib.sha256(content.encode()).hexdigest()
used by FileManager._get_content_hash. Words are Nat values reduced
modulo 2 ^ 32. -/
namespace SHA256

/-- Reduce modulo `2 ^ 32`. -/
def w32 (n : Nat) : Nat := n % 4294967296

/-- Bitwise exclusive or on 32-bit words. -/
def bxor (a b : Nat) : Nat := a ^^^ b

/-- Bitwise and on 32-bit words. -/
def band (a b : Nat) : Nat := a &&& b

/-- Bitwise complement of a 32-bit word. -/
def bnot (a : Nat) : Nat := 4294967295 - a

/-- Logical right shift on 32-bit words. -/
def shr (x n : Nat) : Nat := x >>> n

/-- Right rotation on 32-bit words. -/
def rotr (x n : Nat) : Nat := w32 ((x >>> n) + ((x % 2 ^ n) <<< (32 - n)))

/-- The choice function of the compression round. -/
def ch (e f g : Nat) : Nat := bxor (band e f) (band (bnot e) g)

/-- The majority function of the compression round. -/
def maj (a b c : Nat) : Nat := bxor (bxor (band a b) (band a c)) (band b c)

/-- Big sigma-0. -/
def bigS0 (x : Nat) : Nat := bxor (bxor (rotr x 2) (rotr x 13)) (rotr x 22)

/-- Big sigma-1. -/
def bigS1 (x : Nat) : Nat := bxor (bxor (rotr x 6) (rotr x 11)) (rotr x 25)

/-- Small sigma-0. -/
def smallS0 (x : Nat) : Nat := bxor (bxor (rotr x 7) (rotr x 18)) (shr x 3)

/-- Small sigma-1. -/
def smallS1 (x : Nat) : Nat := bxor (bxor (rotr x 17) (rotr x 19)) (shr x 10)

/-- The 64 round constants (FIPS 180-4, in decimal). -/
def K : List Nat :=
  [1116352408, 1899447441, 3049323471, 3921009573, 961987163, 1508970993,
   2453635748, 2870763221, 3624381080, 310598401, 607225278, 1426881987,
   1925078388, 2162078206, 2614888103, 3248222580, 3835390401, 4022224774,
   264347078, 604807628, 770255983, 1249150122, 1555081692, 1996064986,
   2554220882, 2821834349, 2952996808, 3210313671, 3336571891, 3584528711,
   113926993, 338241895, 666307205, 773529912, 1294757372, 1396182291,
   1695183700, 1986661051, 2177026350, 2456956037, 2730485921, 2820302411,
   3259730800, 3345764771, 3516065817, 3600352804, 4094571909, 275423344,
   430227734, 506948616, 659060556, 883997877, 958139571, 1322822218,
   1537002063, 1747873779, 1955562222, 2024104815, 2227730452, 2361852424,
   2428436474, 2756734187, 3204031479, 3329325298]

/-- The running hash state (eight 32-bit words). -/
structure Digest where
  a : Nat
  b : Nat
  c : Nat
  d : Nat
  e : Nat
  f : Nat
  g : Nat
  h : Nat
  deriving Repr, DecidableEq

/-- The initial hash value (FIPS 180-4, in decimal). -/
def initH : Digest :=
  ⟨1779033703, 3144134277, 1013904242, 2773480762, 1359893119, 2600822924, 528734635, 1541459225⟩

/-- UTF-8 encoding of one character, as byte values. -/
def utf8Char (c : Char) : List Nat :=
  let n := c.toNat
  if n < 128 then [n]
  else if n < 2048 then [192 + n / 64, 128 + n % 64]
  else if n < 65536 then [224 + n / 4096, 128 + n / 64 % 64, 128 + n % 64]
  else [240 + n / 262144, 128 + n / 4096 % 64, 128 + n / 64 % 64, 128 + n % 64]

/-- UTF-8 encoding of a string (Python `content.encode()`). -/
def strBytes (s : String) : List Nat := (s.data.map utf8Char).flatten

/-- SHA-256 padding: append `0x80`, zeros to 56 mod 64, and the bit length
as eight big-endian bytes. -/
def padBytes (msg : List Nat) : List Nat :=
  let L := msg.length
  let k := (119 - L % 64) % 64
  let lenBits := 8 * L
  msg ++ [128] ++ List.replicate k 0 ++
    [lenBits / 2 ^ 56 % 256, lenBits / 2 ^ 48 % 256, lenBits / 2 ^ 40 % 256,
     lenBits / 2 ^ 32 % 256, lenBits / 2 ^ 24 % 256, lenBits / 2 ^ 16 % 256,
     lenBits / 2 ^ 8 % 256, lenBits % 256]

/-- Group bytes into big-endian 32-bit words. -/
def toWords : List Nat → List Nat
  | b0 :: b1 :: b2 :: b3 :: rest =>
    (b0 * 16777216 + b1 * 65536 + b2 * 256 + b3) :: toWords rest
  | _ => []

/-- Group words into 16-word blocks. -/
def toBlocks : List Nat → List (List Nat)
  | w0 :: w1 :: w2 :: w3 :: w4 :: w5 :: w6 :: w7 ::
    w8 :: w9 :: w10 :: w11 :: w12 :: w13 :: w14 :: w15 :: rest =>
    [w0, w1, w2, w3, w4, w5, w6, w7, w8, w9, w10, w11, w12, w13, w14, w15] :: toBlocks rest
  | _ => []

/-- Extend the 16-word block to the 64-word message schedule; the accumulator
keeps the newest word first. -/
def extendSchedule : Nat → List Nat → List Nat
  | 0, ws => ws
  | n + 1, ws =>
    let w := w32 (smallS1 (ws.getD 1 0) + ws.getD 6 0 + smallS0 (ws.getD 14 0) + ws.getD 15 0)
    extendSchedule n (w :: ws)

/-- The 64-word message schedule of a block. -/
def schedule (block : List Nat) : List Nat := (extendSchedule 48 block.reverse).reverse

/-- One compression round, consuming a `(constant, scheduled word)` pair. -/
def roundStep (st : Digest) (kw : Nat × Nat) : Digest :=
  let t1 := w32 (st.h + bigS1 st.e + ch st.e st.f st.g + kw.1 + kw.2)
  let t2 := w32 (bigS0 st.a + maj st.a st.b st.c)
  ⟨w32 (t1 + t2), st.a, st.b, st.c, w32 (st.d + t1), st.e, st.f, st.g⟩

/-- Compress one 16-word block into the running hash state. -/
def compressBlock (st : Digest) (block : List Nat) : Digest :=
  let r := (List.zip K (schedule block)).foldl roundStep st
  ⟨w32 (st.a + r.a), w32 (st.b + r.b), w32 (st.c + r.c), w32 (st.d + r.d),
   w32 (st.e + r.e), w32 (st.f + r.f), w32 (st.g + r.g), w32 (st.h + r.h)⟩

/-- The SHA-256 digest of a byte sequence. -/
def digestBytes (msg : List Nat) : Digest :=
  (toBlocks (toWords (padBytes msg))).foldl compressBlock initH

/-- One lowercase hexadecimal digit. -/
def hexDigit (n : Nat) : Char :=
  if n < 10 then Char.ofNat (48 + n) else Char.ofNat (87 + n)

/-- Eight lowercase hexadecimal digits of a 32-bit word. -/
def wordHex (n : Nat) : List Char :=
  [hexDigit (n / 2 ^ 28 % 16), hexDigit (n / 2 ^ 24 % 16), hexDigit (n / 2 ^ 20 % 16),
   hexDigit (n / 2 ^ 16 % 16), hexDigit (n / 2 ^ 12 % 16), hexDigit (n / 2 ^ 8 % 16),
   hexDigit (n / 2 ^ 4 % 16), hexDigit (n % 16)]

end SHA256

/-- Python `hashlib.sha256(s.encode()).hexdigest()`. -/
def sha256hex (s : String) : String :=
  let d := SHA256.digestBytes (SHA256.strBytes s)
  String.mk (SHA256.wordHex d.a ++ SHA256.wordHex d.b ++ SHA256.wordHex d.c ++
    SHA256.wordHex d.d ++ SHA256.wordHex d.e ++ SHA256.wordHex d.f ++
    SHA256.wordHex d.g ++ SHA256.wordHex d.h)

/-- Union of two Python dictionaries (second wins), keeping the order of the
first and appending new keys of the second. -/
def dictMerge (a b : List (String × Json)) : List (String × Json) :=
  a.map (fun kv => (kv.1, ((b.find? (fun kv2 => kv2.1 = kv.1)).map (fun kv2 => kv2.2)).getD kv.2)) ++
    b.filter (fun kv2 => (a.find? (fun kv => kv.1 = kv2.1)).isNone)

/-- Python `save_data = data.copy(); if metadata: save_data["metadata"] = merge`
from the storage implementations. -/
def mergeJsonMetadata (data : Json) (metadata : Option (List (String × Json))) : Json :=
  match metadata with
  | none => data
  | some md =>
    match data with
    | Json.obj kvs =>
      let old := match kvs.find? (fun kv => kv.1 = "metadata") with
        | some (_, Json.obj okvs) => okvs
        | _ => []
      Json.obj (dictMerge kvs [("metadata", Json.obj (dictMerge old md))])
    | other => other

/-- The polymorphic storage interface of app/core/storage/base.py
(`save_file`, `save_json`, `file_exists`, `get_file_url`). -/
structure StorageBackend where
  saveFile : String → String → List (String × String) → Eff String
  saveJson : Json → String → Option (List (String × Json)) → Eff String
  fileExists : String → Store → Bool
  getFileUrl : String → String

namespace LocalStorage

/-- LocalStorage.save_file: writes under the base directory and returns the
full path. -/
def saveFile (baseDir : String) (content filepath : String)
    (_metadata : List (String × String)) : Eff String := fun st =>
  let fullPath := baseDir ++ "/" ++ filepath
  (.ok fullPath, { st with files := (fullPath, FileData.text content) :: st.files })

/-- LocalStorage.save_json: writes the (metadata-merged) JSON payload under
the base directory and returns the full path. -/
def saveJson (baseDir : String) (data : Json) (filepath : String)
    (metadata : Option (List (String × Json))) : Eff String := fun st =>
  let fullPath := baseDir ++ "/" ++ filepath
  (.ok fullPath,
   { st with files := (fullPath, FileData.json (mergeJsonMetadata data metadata)) :: st.files })

/-- LocalStorage.file_exists. -/
def fileExists (baseDir : String) (filepath : String) (st : Store) : Bool :=
  st.hasFile (baseDir ++ "/" ++ filepath)

end LocalStorage

/-- The local filesystem backend (app/core/storage/local_storage.py) with its
configured base directory. -/
def localStorage (baseDir : String) : StorageBackend where
  saveFile := LocalStorage.saveFile baseDir
  saveJson := LocalStorage.saveJson baseDir
  fileExists := LocalStorage.fileExists baseDir
  getFileUrl := fun filepath => baseDir ++ "/" ++ filepath

/-- Python `"_".join(parts)`. -/
def joinWith (sep : String) : List String → String
  | [] => ""
  | [x] => x
  | x :: y :: rest => x ++ sep ++ joinWith sep (y :: rest)

namespace FileManager

/-- FileManager._generate_filename (app/core/file_manager.py, lines 19-34):
optional version prefix, then extraction type, the first 8 hex characters of
the content hash, and the timestamp, joined by underscores. -/
def generateFilename (contentHash extractionType : String) (pfx : Option String)
    (extension : String) (ts : String) : String :=
  let parts := (match pfx with
    | some p => if p = "" then [] else [p]
    | none => []) ++ [extractionType, contentHash.take 8, ts]
  joinWith "_" parts ++ extension

/-- FileManager._get_content_hash: `hashlib.sha256(content.encode()).hexdigest()`. -/
def getContentHash (content : String) : String := sha256hex content

/-- Python `output_dir.split("/")[-1] if "/" in output_dir else output_dir`. -/
def dirNameOf (outputDir : String) : String :=
  if outputDir.contains '/' then (outputDir.splitOn "/").getLastD outputDir else outputDir

/-- FileManager.save_markdown (lines 86-135): hash the content, build the
filename and relative path, prepend the comment header, delegate to the
configured storage backend. The filename timestamp `ts` and ISO timestamp
`tsIso` stand for `datetime.now(timezone.utc)`. -/
def saveMarkdown (storage : StorageBackend) (backendTag ts tsIso : String)
    (content : String) (sourceUrl outputDir pfx : Option String) : Eff String := fun st =>
  let contentHash := getContentHash content
  let filename := generateFilename contentHash "markdown" pfx ".md" ts
  let filepath := match outputDir with
    | some d => if d = "" then "markdown/" ++ filename else dirNameOf d ++ "/" ++ filename
    | none => "markdown/" ++ filename
  let markdownContent :=
    (match sourceUrl with
      | some u => if u = "" then "" else "<!-- Source URL: " ++ u ++ " -->\n"
      | none => "") ++
    "<!-- Content Hash: " ++ contentHash ++ " -->\n" ++
    "<!-- Saved: " ++ tsIso ++ " -->\n" ++
    "<!-- Storage Backend: " ++ backendTag ++ " -->\n\n" ++ content
  storage.saveFile markdownContent filepath
    [("source_url", sourceUrl.getD ""), ("content_hash", contentHash),
     ("storage_backend", backendTag)] st

/-- The metadata dictionary that FileManager.save_json places in the envelope. -/
def jsonMetadata (extractionType contentHash tsIso filename backendTag : String) : Json :=
  Json.obj [("extraction_type", Json.str extractionType),
            ("content_hash", Json.str contentHash),
            ("timestamp", Json.str tsIso),
            ("filename", Json.str filename),
            ("storage_backend", Json.str backendTag)]

/-- The `{"metadata": ..., "extracted_data": ...}` envelope of
FileManager.save_json. -/
def jsonEnvelope (meta data : Json) : Json :=
  Json.obj [("metadata", meta), ("extracted_data", data)]

/-- FileManager.save_json (lines 40-84): hash the source content, build the
filename and relative path, wrap the data in the metadata envelope, delegate
to the configured storage backend. -/
def saveJson (storage : StorageBackend) (backendTag ts tsIso : String)
    (data : Json) (content extractionType : String) (outputDir pfx : Option String) :
    Eff String := fun st =>
  let contentHash := getContentHash content
  let filename := generateFilename contentHash extractionType pfx ".json" ts
  let filepath := match outputDir with
    | some d => if d = "" then "json/" ++ filename else dirNameOf d ++ "/" ++ filename
    | none => "json/" ++ filename
  let saveData := jsonEnvelope (jsonMetadata extractionType contentHash tsIso filename backendTag) data
  storage.saveJson saveData filepath none st

end FileManager

namespace ContentScraper

/-- Greedy capture of the regex class `[^&\n?#]+` (possibly empty here; the
callers require non-emptiness). -/
def capture (cs : List Char) : List Char :=
  cs.takeWhile (fun c => c != '&' && c != '\n' && c != '?' && c != '#')

/-- Match one literal alternative at this position followed by a non-empty
`[^&\n?#]+` capture. -/
def tryLiteral (lit cs : List Char) : Option (List Char) :=
  if lit.isPrefixOf cs then
    let cap := capture (cs.drop lit.length)
    if cap.isEmpty then none else some cap
  else none

/-- The alternation of the first pattern
`(?:youtube\.com\/watch\?v=|youtu\.be\/|youtube\.com\/embed\/)([^&\n?#]+)`,
tried in order at one position. -/
def firstAlt (cs : List Char) : Option (List Char) :=
  match tryLiteral "youtube.com/watch?v=".data cs with
  | some cap => some cap
  | none =>
    match tryLiteral "youtu.be/".data cs with
    | some cap => some cap
    | none => tryLiteral "youtube.com/embed/".data cs

/-- Python `re.search` of the first pattern: leftmost position wins. -/
def searchPat1 : List Char → Option (List Char)
  | [] => none
  | c :: rest =>
    match firstAlt (c :: rest) with
    | some cap => some cap
    | none => searchPat1 rest

/-- The `.*v=([^&\n?#]+)` tail of the second pattern: `.*` is greedy and does
not cross a newline, so the latest `v=` with a non-empty capture wins,
falling back to earlier occurrences. -/
def lastVMatch : List Char → Option (List Char)
  | [] => none
  | c :: rest =>
    if c = '\n' then none
    else
      match lastVMatch rest with
      | some cap => some cap
      | none =>
        if c = 'v' then
          match rest with
          | '=' :: after =>
            let cap := capture after
            if cap.isEmpty then none else some cap
          | _ => none
        else none

/-- Match the second pattern `youtube\.com\/watch\?.*v=([^&\n?#]+)` at one
position. -/
def tryPat2 (cs : List Char) : Option (List Char) :=
  if "youtube.com/watch?".data.isPrefixOf cs then
    lastVMatch (cs.drop "youtube.com/watch?".data.length)
  else none

/-- Python `re.search` of the second pattern: leftmost position wins. -/
def searchPat2 : List Char → Option (List Char)
  | [] => none
  | c :: rest =>
    match tryPat2 (c :: rest) with
    | some cap => some cap
    | none => searchPat2 rest

/-- ContentScraper._extract_youtube_id (app/core/content_scraper.py, lines
250-262): try the two patterns in order, returning the captured group. -/
def extractYoutubeId (url : String) : Option String :=
  match searchPat1 url.data with
  | some cap => some (String.mk cap)
  | none =>
    match searchPat2 url.data with
    | some cap => some (String.mk cap)
    | none => none

/-- ContentScraper._process_youtube (lines 205-248): extract the video id
(raising `ValueError("Invalid YouTube URL")` when absent), fetch the
transcript through the external API (an oracle), join the segments with
single spaces, reject an empty transcript, optionally save markdown, and
return the stripped transcript. -/
def processYoutube (storage : StorageBackend) (backendTag ts tsIso : String)
    (getTranscript : String → Except String (List String))
    (youtubeUrl : String) (saveMd : Bool) (outputDir : Option String) :
    Eff (String × Option String) := fun st =>
  match extractYoutubeId youtubeUrl with
  | none => (.error "Invalid YouTube URL", st)
  | some videoId =>
    match getTranscript videoId with
    | .error e => (.error e, st)
    | .ok segments =>
      let transcriptText := joinWith " " segments
      if pyStrip transcriptText = "" then (.error "No transcript available for this video", st)
      else
        if saveMd then
          match FileManager.saveMarkdown storage backendTag ts tsIso transcriptText
              (some youtubeUrl) outputDir (some ("youtube_" ++ videoId)) st with
          | (.ok p, st1) => (.ok (pyStrip transcriptText, some p), st1)
          | (.error e, st1) => (.error e, st1)
        else (.ok (pyStrip transcriptText, none), st)

/-- Python `s.split(",", 1)` when a comma is present: the text before the
first comma and everything after it. -/
def splitAtComma : List Char → Option (List Char × List Char)
  | [] => none
  | c :: rest =>
    if c = ',' then some ([], rest)
    else
      match splitAtComma rest with
      | some (pre, post) => some (c :: pre, post)
      | none => none

/-- String version of `splitAtComma`. -/
def splitFirstComma (s : String) : Option (String × String) :=
  (splitAtComma s.data).map (fun pq => (String.mk pq.1, String.mk pq.2))

/-- Whether `needle` occurs inside `hay`. -/
def hasInfix (needle : List Char) : List Char → Bool
  | [] => needle.isEmpty
  | c :: rest => needle.isPrefixOf (c :: rest) || hasInfix needle rest

/-- Python `sub in s` on strings. -/
def containsSub (s sub : String) : Bool := hasInfix sub.data s.data

/-- Python `s.startswith(p)`. -/
def strStartsWith (s p : String) : Bool := p.data.isPrefixOf s.data

/-- The extension chosen for a decoded `data:audio` payload from the declared
MIME type (lines 319-329), defaulting to `.wav`. -/
def audioExt (header : String) : String :=
  if containsSub header "audio/wav" then ".wav"
  else if containsSub header "audio/mp3" then ".mp3"
  else if containsSub header "audio/m4a" then ".m4a"
  else if containsSub header "audio/ogg" then ".ogg"
  else ".wav"

/-- A fresh temporary-file path as produced by
`tempfile.NamedTemporaryFile(delete=False, suffix=ext)`. -/
def tmpName (n : Nat) (ext : String) : String := "/tmp/tmp" ++ toString n ++ ext

/-- The external collaborators of the audio path: the base64 decoder (which
may reject the payload), the Whisper transcription call, and `hashlib.md5`
for the markdown header, plus the configured storage backend and clock. -/
structure AudioEnv where
  b64decode : String → Option Unit
  transcribe : String → Except String String
  md5hex : String → String
  storage : StorageBackend
  backendTag : String
  ts : String
  tsIso : String

/-- ContentScraper._prepare_audio_for_openai (lines 306-350): an existing
file path passes through; a `data:audio` URI is split at the first comma,
base64-decoded and written to a fresh temporary file whose extension comes
from the declared MIME type; a raw base64 payload is decoded to a `.wav`
temporary file; anything else raises. -/
def prepareAudioForOpenai (env : AudioEnv) (audioInput : String) : Eff String := fun st =>
  if st.hasFile audioInput then (.ok audioInput, st)
  else if strStartsWith audioInput "data:audio" then
    match splitFirstComma audioInput with
    | none => (.error "not enough values to unpack (expected 2, got 1)", st)
    | some (header, data) =>
      match env.b64decode data with
      | none => (.error "Invalid base64-encoded string", st)
      | some _ =>
        let name := tmpName st.counter (audioExt header)
        (.ok name, { files := (name, FileData.bin) :: st.files, counter := st.counter + 1 })
  else
    match env.b64decode audioInput with
    | some _ =>
      let name := tmpName st.counter ".wav"
      (.ok name, { files := (name, FileData.bin) :: st.files, counter := st.counter + 1 })
    | none => (.error "Invalid audio input format. Provide file path or base64 encoded audio.", st)

/-- ContentScraper._process_audio_with_whisper (lines 264-304): prepare the
audio file, transcribe it, reject an empty transcript, optionally save the
markdown, and only then delete the temporary file (when one was created and
still exists); the error paths perform no cleanup. -/
def processAudioWithWhisper (env : AudioEnv) (audioInput : String) (saveMd : Bool)
    (outputDir : Option String) : Eff (String × Option String) := fun st =>
  match prepareAudioForOpenai env audioInput st with
  | (.error e, st1) => (.error e, st1)
  | (.ok audioFilePath, st1) =>
    match env.transcribe audioFilePath with
    | .error e => (.error e, st1)
    | .ok transcript =>
      if pyStrip transcript = "" then (.error "No content extracted from audio", st1)
      else
        let mdStep : Except String (Option String) × Store :=
          if saveMd then
            match FileManager.saveMarkdown env.storage env.backendTag env.ts env.tsIso
                transcript (some ("audio_transcription_" ++ (env.md5hex audioInput).take 8))
                outputDir (some "audio_transcription") st1 with
            | (.ok p, st2) => (.ok (some p), st2)
            | (.error e, st2) => (.error e, st2)
          else (.ok none, st1)
        match mdStep with
        | (.error e, st2) => (.error e, st2)
        | (.ok mdPath, st2) =>
          let st3 :=
            if !(audioFilePath == audioInput) && st2.hasFile audioFilePath then
              { st2 with files := st2.files.eraseP (fun f => decide (f.1 = audioFilePath)) }
            else st2
          (.ok (pyStrip transcript, mdPath), st3)

end ContentScraper

/-- The extraction-schema classes of app/models/schemas/. -/
inductive SchemaClass where
  | RecipeExtraction : SchemaClass
  | QuotesExtraction : SchemaClass
  | InsightsExtraction : SchemaClass
  | NotesExtraction : SchemaClass
  | BookmarksExtraction : SchemaClass
  | BooksExtraction : SchemaClass
  | JobPostingsExtraction : SchemaClass
  deriving Repr, DecidableEq

/-- The discovered in-memory map of SchemaRegistry (`_schemas`), from
extraction type to schema class. -/
abbrev Registry := List (String × SchemaClass)

/-- The registered keys, `list(cls._schemas.keys())`. -/
def Registry.keys (reg : Registry) : List String := reg.map (fun kv => kv.1)

namespace SchemaRegistry

/-- One item of the Python list repr of a list of strings. -/
def pyItems : List String → String
  | [] => ""
  | [k] => "'" ++ k ++ "'"
  | k :: k2 :: rest => "'" ++ k ++ "', " ++ pyItems (k2 :: rest)

/-- Python repr of a list of plain strings, as an f-string renders it. -/
def pyListRepr (ks : List String) : String := "[" ++ pyItems ks ++ "]"

/-- The message of the `ValueError` raised by SchemaRegistry.get_schema:
it carries the requested key and the full list of known keys. -/
def schemaNotFoundMsg (extractionType : String) (available : List String) : String :=
  "Unknown extraction type: " ++ extractionType ++ ". Available: " ++ pyListRepr available

/-- SchemaRegistry.get_schema (app/services/schema_registry.py, lines 58-67):
return the registered class, or raise a `ValueError` listing the known keys. -/
def getSchema (reg : Registry) (extractionType : String) : Except String SchemaClass :=
  match reg.find? (fun kv => kv.1 = extractionType) with
  | some kv => .ok kv.2
  | none => .error (schemaNotFoundMsg extractionType (Registry.keys reg))

end SchemaRegistry

namespace ExtractionEngine

/-- The schema-resolution step of ExtractionEngine.extract_structured_data
(app/core/extraction_engine.py, lines 43-61): the registry error is caught;
`recipes`, `quotes` and `insights` fall back to direct imports; any other
unknown type raises a new `ValueError` that does not carry the known keys. -/
def resolveSchema (reg : Registry) (extractionType : String) : Except String SchemaClass :=
  match SchemaRegistry.getSchema reg extractionType with
  | .ok c => .ok c
  | .error _ =>
    if extractionType = "recipes" then .ok SchemaClass.RecipeExtraction
    else if extractionType = "quotes" then .ok SchemaClass.QuotesExtraction
    else if extractionType = "insights" then .ok SchemaClass.InsightsExtraction
    else .error ("Unknown extraction type: " ++ extractionType)

end ExtractionEngine

/-- The configuration surface consumed by the storage factory
(app/config.py). -/
structure Settings where
  storage_backend : String
  data_dir : String
  s3_bucket_name : String
  s3_region : String
  s3_access_key_id : String
  s3_secret_access_key : String
  s3_endpoint_url : String
  s3KeyPrefix : String
  deriving Repr, DecidableEq

/-- The possible outcomes of the `head_bucket` network call made by
S3Storage._verify_bucket_access. -/
inductive HeadBucketOutcome where
  | ok : HeadBucketOutcome
  | notFound : HeadBucketOutcome
  | accessDenied : HeadBucketOutcome
  | otherError : String → HeadBucketOutcome
  | noCredentials : HeadBucketOutcome
  deriving Repr, DecidableEq

/-- The S3 service as seen through boto3: what `head_bucket` answers. -/
structure S3Env where
  headBucket : String → HeadBucketOutcome

/-- A storage backend as constructed by the factory. -/
inductive CreatedBackend where
  | localB : String → CreatedBackend
  | s3B : String → String → CreatedBackend
  deriving Repr, DecidableEq

/-- Python `s.rstrip("/")`. -/
def rstripSlashes (s : String) : String :=
  String.mk (s.data.reverse.dropWhile (fun c => c = '/')).reverse

namespace Storage

/-- S3Storage.__init__ (app/core/storage/s3_storage.py, lines 22-79):
normalize the key prefix, build the boto3 session and client (no network
traffic), then verify bucket access with exactly one `head_bucket` call,
translating its failures into descriptive `ValueError` messages. The second
component counts the network calls performed. -/
def s3StorageInit (env : S3Env) (bucketName _region _accessKeyId _secretAccessKey
    _endpointUrl keyPrefix : String) : Except String CreatedBackend × Nat :=
  let pfx := if keyPrefix = "" then "" else rstripSlashes keyPrefix ++ "/"
  match env.headBucket bucketName with
  | .ok => (.ok (.s3B bucketName pfx), 1)
  | .notFound => (.error ("S3 bucket '" ++ bucketName ++ "' does not exist"), 1)
  | .accessDenied => (.error ("Access denied to S3 bucket '" ++ bucketName ++ "'"), 1)
  | .otherError m => (.error ("Error accessing S3 bucket '" ++ bucketName ++ "': " ++ m), 1)
  | .noCredentials =>
    (.error "AWS credentials not found. Please run 'aws configure' or set credentials in environment variables.", 1)

/-- StorageFactory.create_storage (app/core/storage/factory.py, lines 15-49):
`backend_type or settings.storage_backend` (an empty or missing override
falls back to the configuration), then dispatch on the backend name; the
`s3` branch validates the bucket name before constructing `S3Storage`. The
second component counts the network calls performed. -/
def createStorage (env : S3Env) (backendType : Option String) (s : Settings) :
    Except String CreatedBackend × Nat :=
  let backend := match backendType with
    | some b => if b = "" then s.storage_backend else b
    | none => s.storage_backend
  if backend = "local" then (.ok (.localB s.data_dir), 0)
  else if backend = "s3" then
    if s.s3_bucket_name = "" then
      (.error "S3 bucket name is required when using S3 storage", 0)
    else
      s3StorageInit env s.s3_bucket_name s.s3_region s.s3_access_key_id
        s.s3_secret_access_key s.s3_endpoint_url s.s3KeyPrefix
  else (.error ("Unsupported storage backend: " ++ backend), 0)

end Storage

namespace ExtractionService

/-- The collaborators of ExtractionService.process_extraction: the configured
storage backend (shared with FileManager), the content scraper and the two
extraction-engine entry points (external LLM calls, hence oracles), and the
request clock. -/
structure ServiceEnv where
  storage : StorageBackend
  backendTag : String
  fetchContent : String → String → Bool → Option String → Eff (String × Option String)
  extractStructured : String → String → Option String → Except String (Json × TokenUsage × Nat)
  extractFromImage : String → String → Option String → Except String (Json × TokenUsage × Nat)
  ts : String
  tsIso : String
  totalTime : Nat

/-- The values assembled by the happy path of the orchestrator. -/
structure PipelineOk where
  data : Json
  usage : TokenUsage
  extractionTime : Nat
  markdownPath : Option String
  jsonPath : Option String

/-- The acquisition step of process_extraction (lines 48-67): text input
passes through (optionally persisted via FileManager.save_markdown), every
other input type goes through ContentScraper.fetch_content. -/
def acquireStep (env : ServiceEnv) (r : ExtractionRequest) : Eff (String × Option String) := fun st =>
  if r.input_type = InputType.text then
    if r.save_markdown then
      match FileManager.saveMarkdown env.storage env.backendTag env.ts env.tsIso
          r.content none r.output_directory r.filenamePrefix st with
      | (.ok p, st1) => (.ok (r.content, some p), st1)
      | (.error e, st1) => (.error e, st1)
    else (.ok (r.content, none), st)
  else env.fetchContent r.content r.input_type.toValue r.save_markdown r.output_directory st

/-- The `save_json` step of process_extraction (lines 76-85). -/
def saveJsonStep (env : ServiceEnv) (r : ExtractionRequest) (d : Json) (content : String) :
    Eff (Option String) := fun st =>
  if r.save_json then
    match FileManager.saveJson env.storage env.backendTag env.ts env.tsIso d content
        r.extraction_type r.output_directory r.filenamePrefix st with
    | (.ok p, st1) => (.ok (some p), st1)
    | (.error e, st1) => (.error e, st1)
  else (.ok none, st)

/-- The body of the `try` block of ExtractionService.process_extraction
(app/services/extraction_service.py, lines 33-104): the direct-image fast
path for `image`+`recipes`, otherwise acquisition followed by structured
extraction, then the optional JSON save. -/
def processCore (env : ServiceEnv) (r : ExtractionRequest) : Eff PipelineOk := fun st =>
  if r.input_type = InputType.image && r.extraction_type = "recipes" then
    match env.extractFromImage r.content r.extraction_type r.custom_instructions with
    | .error e => (.error e, st)
    | .ok (d, u, t) =>
      match saveJsonStep env r d "Direct image extraction - no intermediate text" st with
      | (.error e, st1) => (.error e, st1)
      | (.ok jp, st1) => (.ok ⟨d, u, t, none, jp⟩, st1)
  else
    match acquireStep env r st with
    | (.error e, st1) => (.error e, st1)
    | (.ok (content, mdPath), st1) =>
      match env.extractStructured content r.extraction_type r.custom_instructions with
      | .error e => (.error e, st1)
      | .ok (d, u, t) =>
        match saveJsonStep env r d content st1 with
        | (.error e, st2) => (.error e, st2)
        | (.ok jp, st2) => (.ok ⟨d, u, t, mdPath, jp⟩, st2)

/-- ExtractionService.process_extraction (lines 23-124): run the pipeline
and catch every exception at the orchestrator boundary, converting it into
a `success=false` result whose `error_message` is the error description. -/
def processExtraction (env : ServiceEnv) (r : ExtractionRequest) : Store → ExtractionResult × Store := fun st =>
  match processCore env r st with
  | (.ok k, st1) =>
    ({ success := true, extraction_type := r.extraction_type, extracted_data := some k.data,
       markdown_path := k.markdownPath, json_path := k.jsonPath,
       processing_time := env.totalTime, timestamp := env.tsIso,
       token_usage := some k.usage, error_message := none, warnings := [] }, st1)
  | (.error e, st1) =>
    ({ success := false, extraction_type := r.extraction_type, extracted_data := none,
       markdown_path := none, json_path := none, processing_time := env.totalTime,
       timestamp := env.tsIso, token_usage := none, error_message := some e,
       warnings := [] }, st1)

/-- The `/extract` entry as seen from outside: pydantic request validation
(enum coercion and the content validator) runs before the service is
invoked, so a rejected request touches neither the store nor any oracle. -/
def extractEndpointRaw (env : ServiceEnv) (input_type content extraction_type : String)
    (save_markdown save_json : Bool)
    (output_directory filenamePrefix custom_instructions : Option String) :
    Eff ExtractionResult := fun st =>
  match mkExtractionRequest input_type content extraction_type save_markdown save_json
      output_directory filenamePrefix custom_instructions with
  | .error e => (.error e, st)
  | .ok r =>
    let p := processExtraction env r st
    (.ok p.1, p.2)

end ExtractionService

/-- A local-backend configuration as app/config.py defaults it. -/
def demoSettingsLocal : Settings :=
  { storage_backend := "local", data_dir := "data", s3_bucket_name := "",
    s3_region := "eu-west-3", s3_access_key_id := "", s3_secret_access_key := "",
    s3_endpoint_url := "", s3KeyPrefix := "fastapi-data-extractor/" }

/-- An S3 service that would answer every head_bucket call. -/
def demoS3Env : S3Env := ⟨fun _ => HeadBucketOutcome.ok⟩

/-- A service environment whose extraction engine always fails. -/
def demoEnvFail : ExtractionService.ServiceEnv :=
  { storage := localStorage "data", backendTag := "local",
    fetchContent := fun _ _ _ _ st => (.error "acquisition failed", st),
    extractStructured := fun _ _ _ => .error "boom",
    extractFromImage := fun _ _ _ => .error "boom-image",
    ts := "20240101_000000", tsIso := "2024-01-01T00:00:00+00:00", totalTime := 1 }

/-- A text request that asks for both artifacts. -/
def demoReqText : ExtractionRequest :=
  { input_type := InputType.text, content := "Buy milk tomorrow",
    extraction_type := "notes", save_markdown := true, save_json := true }

/-- An audio environment for the counterexample run: decoding succeeds and
Whisper returns an empty transcript. -/
def demoAudioEnv : ContentScraper.AudioEnv :=
  { b64decode := fun _ => some (), transcribe := fun _ => .ok "",
    md5hex := fun _ => "d41d8cd98f00b204e9800998ecf8427e",
    storage := localStorage "data", backendTag := "local",
    ts := "20240101_000000", tsIso := "2024-01-01T00:00:00+00:00" }

/-- C2: evaluating the code at the failing input — neither `audio` nor
`video_url` is a value of the `InputType` enum, so a request carrying either
is rejected by validation; the audio-upload endpoint, which constructs a
request with input_type `audio`, can therefore never succeed. -/
theorem inputType_audio_video_url_rejected :
    InputType.ofString "audio" = none ∧ InputType.ofString "video_url" = none := by
  decide

/-- The actual input-type range and dispatch: the `InputType` enum has
exactly the four values `text`, `url`, `image`, `youtube_url`; each is
accepted by request validation and dispatched by
`ContentScraper.fetch_content` to the corresponding branch; the scraper
audio branch is unreachable from any enum value. -/
theorem inputType_range_and_dispatch :
    (∀ s : String, (InputType.ofString s).isSome ↔
      (s = "text" ∨ s = "url" ∨ s = "image" ∨ s = "youtube_url")) ∧
    (∀ t : InputType, InputType.ofString t.toValue = some t) ∧
    fetchContentBranch "text" = .ok Branch.text ∧
    fetchContentBranch "url" = .ok Branch.url ∧
    fetchContentBranch "image" = .ok Branch.image ∧
    fetchContentBranch "youtube_url" = .ok Branch.youtube ∧
    (∀ t : InputType, t.toValue ≠ "audio") := by
  refine ⟨?_, ?_, rfl, rfl, rfl, rfl, ?_⟩
  · intro s
    unfold InputType.ofString
    split_ifs with h1 h2 h3 h4 <;> simp_all
  · intro t; cases t <;> decide
  · intro t; cases t <;> decide

/-- C3: video-identifier parsing is a pure function of the URL string:
a youtu.be short link and a watch?v= link yield their video ids, and a
non-YouTube URL yields no identifier, so `_process_youtube` raises
`ValueError("Invalid YouTube URL")` before consulting the transcript API. -/
theorem extractYoutubeId_spec :
    ContentScraper.extractYoutubeId "https://youtu.be/AAAAAAAAAAA" = some "AAAAAAAAAAA" ∧
    ContentScraper.extractYoutubeId "https://www.youtube.com/watch?v=BBBBBBBBBBB&t=10s" =
      some "BBBBBBBBBBB" ∧
    (∀ (storage : StorageBackend) (backendTag ts tsIso : String)
      (getTranscript : String → Except String (List String))
      (saveMd : Bool) (outputDir : Option String) (st : Store),
      ContentScraper.processYoutube storage backendTag ts tsIso getTranscript
        "https://example.com/not-a-video" saveMd outputDir st =
        (Except.error "Invalid YouTube URL", st)) := by
  refine ⟨by decide, by decide, ?_⟩
  intro storage backendTag ts tsIso getTranscript saveMd outputDir st
  have h : ContentScraper.extractYoutubeId "https://example.com/not-a-video" = none := by decide
  simp [ContentScraper.processYoutube, h]


/-- C7: a request whose content is empty or whitespace-only after trimming is
rejected by the pydantic content validator before the service, the scraper or
the engine run (the store is returned untouched); and every accepted request
carries the non-empty trimmed content. -/
theorem emptyContent_rejected_before_io :
    (∀ (env : ExtractionService.ServiceEnv) (it content et : String) (sm sj : Bool)
      (od fp ci : Option String) (st : Store),
      pyStrip content = "" → (InputType.ofString it).isSome →
      ExtractionService.extractEndpointRaw env it content et sm sj od fp ci st =
        (Except.error "Content cannot be empty", st)) ∧
    (∀ (it raw et : String) (sm sj : Bool) (od fp ci : Option String) (r : ExtractionRequest),
      mkExtractionRequest it raw et sm sj od fp ci = .ok r →
      pyStrip raw ≠ "" ∧ r.content = pyStrip raw) := by
  constructor
  · intro env it content et sm sj od fp ci st h hit
    unfold ExtractionService.extractEndpointRaw mkExtractionRequest
    cases hmatch : InputType.ofString it with
    | none => rw [hmatch] at hit; simp at hit
    | some t => simp [validateContent, h]
  · intro it raw et sm sj od fp ci r h
    unfold mkExtractionRequest at h
    cases hmatch : InputType.ofString it with
    | none => rw [hmatch] at h; simp at h
    | some t =>
      rw [hmatch] at h
      by_cases htrim : pyStrip raw = ""
      · simp [validateContent, htrim] at h
      · refine ⟨htrim, ?_⟩
        simp [validateContent, htrim] at h
        cases h
        rfl

namespace SchemaRegistry

/-- Each member of a list of keys appears inside the rendered Python list. -/
theorem pyItems_infix {k : String} : ∀ {ks : List String}, k ∈ ks →
    k.data <:+: (pyItems ks).data
  | [], h => absurd h (List.not_mem_nil k)
  | [k1], h => by
    rcases List.mem_singleton.mp h with rfl
    refine ⟨"'".data, "'".data, ?_⟩
    simp [pyItems, String.data_append]
  | k1 :: k2 :: rest, h => by
    rcases List.mem_cons.mp h with rfl | h2
    · refine ⟨"'".data, ("', " ++ pyItems (k2 :: rest)).data, ?_⟩
      simp [pyItems, String.data_append, List.append_assoc]
    · have ih := pyItems_infix (k := k) h2
      have : (pyItems (k2 :: rest)).data <:+ (pyItems (k1 :: k2 :: rest)).data := by
        refine ⟨("'" ++ k1 ++ "', ").data, ?_⟩
        simp [pyItems, String.data_append, List.append_assoc]
      exact ih.trans this.isInfix

end SchemaRegistry

/-- C8: the registry lookup either returns the registered class for the key,
or fails with the not-found error whose message carries the requested key and
every currently known key. -/
theorem getSchema_spec (reg : Registry) (key : String) :
    (key ∈ Registry.keys reg →
      ∃ c, SchemaRegistry.getSchema reg key = .ok c ∧ (key, c) ∈ reg) ∧
    (key ∉ Registry.keys reg →
      SchemaRegistry.getSchema reg key =
        .error (SchemaRegistry.schemaNotFoundMsg key (Registry.keys reg)) ∧
      key.data <:+: (SchemaRegistry.schemaNotFoundMsg key (Registry.keys reg)).data ∧
      ∀ k ∈ Registry.keys reg,
        k.data <:+: (SchemaRegistry.schemaNotFoundMsg key (Registry.keys reg)).data) := by
  constructor
  · intro hmem
    cases hf : reg.find? (fun kv => kv.1 = key) with
    | none =>
      exfalso
      rcases List.mem_map.mp hmem with ⟨kv, hkv, hfst⟩
      have := List.find?_eq_none.mp hf kv hkv
      simp [hfst] at this
    | some kv =>
      have hp : kv.1 = key := by
        have := List.find?_some hf
        simpa using this
      have hmem2 : kv ∈ reg := List.mem_of_find?_eq_some hf
      refine ⟨kv.2, ?_, ?_⟩
      · simp [SchemaRegistry.getSchema, hf]
      · rw [← hp]; simpa using hmem2
  · intro hmem
    have hf : reg.find? (fun kv => kv.1 = key) = none := by
      cases hf : reg.find? (fun kv => kv.1 = key) with
      | none => rfl
      | some kv =>
        exfalso
        have hp : kv.1 = key := by
          have := List.find?_some hf
          simpa using this
        exact hmem (List.mem_map.mpr ⟨kv, List.mem_of_find?_eq_some hf, hp⟩)
    refine ⟨by simp [SchemaRegistry.getSchema, hf], ?_, ?_⟩
    · refine ⟨"Unknown extraction type: ".data,
        (". Available: " ++ SchemaRegistry.pyListRepr (Registry.keys reg)).data, ?_⟩
      simp [SchemaRegistry.schemaNotFoundMsg, String.data_append, List.append_assoc]
    · intro k hk
      have h1 : k.data <:+: (SchemaRegistry.pyListRepr (Registry.keys reg)).data := by
        have h2 := SchemaRegistry.pyItems_infix (k := k) hk
        have h3 : (SchemaRegistry.pyItems (Registry.keys reg)).data <:+:
            (SchemaRegistry.pyListRepr (Registry.keys reg)).data := by
          refine ⟨"[".data, "]".data, ?_⟩
          simp [SchemaRegistry.pyListRepr, String.data_append]
        exact h2.trans h3
      have h4 : (SchemaRegistry.pyListRepr (Registry.keys reg)).data <:+
          (SchemaRegistry.schemaNotFoundMsg key (Registry.keys reg)).data := by
        refine ⟨("Unknown extraction type: " ++ key ++ ". Available: ").data, ?_⟩
        simp [SchemaRegistry.schemaNotFoundMsg, String.data_append, List.append_assoc]
      exact h1.trans h4.isInfix

/-- C4 counterexample: with `recipes` registered, the engine resolves the
unregistered type `__unknown__` to a fresh error without the known-keys
list, instead of propagating the registry error unchanged. -/
theorem engine_rewrites_schema_not_found :
    SchemaRegistry.getSchema [("recipes", SchemaClass.RecipeExtraction)] "__unknown__" =
      .error "Unknown extraction type: __unknown__. Available: ['recipes']" ∧
    ExtractionEngine.resolveSchema [("recipes", SchemaClass.RecipeExtraction)] "__unknown__" =
      .error "Unknown extraction type: __unknown__" ∧
    ExtractionEngine.resolveSchema [("recipes", SchemaClass.RecipeExtraction)] "__unknown__" ≠
      SchemaRegistry.getSchema [("recipes", SchemaClass.RecipeExtraction)] "__unknown__" := by
  refine ⟨rfl, rfl, ?_⟩
  intro h
  have h2 := Except.error.inj h
  exact absurd h2 (by decide)

/-- C4 (amended): the engine catches the registry not-found error; the types
`recipes`, `quotes` and `insights` fall back to direct imports, and every
other unregistered type raises a fresh unknown-extraction-type error that
carries the requested key but not the list of known keys. -/
theorem engineResolveSchema_spec (reg : Registry) (et : String)
    (h : et ∉ Registry.keys reg) :
    (et = "recipes" →
      ExtractionEngine.resolveSchema reg et = .ok SchemaClass.RecipeExtraction) ∧
    (et = "quotes" →
      ExtractionEngine.resolveSchema reg et = .ok SchemaClass.QuotesExtraction) ∧
    (et = "insights" →
      ExtractionEngine.resolveSchema reg et = .ok SchemaClass.InsightsExtraction) ∧
    (et ≠ "recipes" → et ≠ "quotes" → et ≠ "insights" →
      ExtractionEngine.resolveSchema reg et =
        .error ("Unknown extraction type: " ++ et)) := by
  have hf : reg.find? (fun kv => kv.1 = et) = none := by
    cases hf : reg.find? (fun kv => kv.1 = et) with
    | none => rfl
    | some kv =>
      exfalso
      have hp : kv.1 = et := by
        have := List.find?_some hf
        simpa using this
      exact h (List.mem_map.mpr ⟨kv, List.mem_of_find?_eq_some hf, hp⟩)
  have hg : SchemaRegistry.getSchema reg et =
      .error (SchemaRegistry.schemaNotFoundMsg et (Registry.keys reg)) := by
    simp [SchemaRegistry.getSchema, hf]
  refine ⟨?_, ?_, ?_, ?_⟩ <;> intro h1
  · subst h1; simp [ExtractionEngine.resolveSchema, hg]
  · subst h1; simp [ExtractionEngine.resolveSchema, hg]
  · subst h1; simp [ExtractionEngine.resolveSchema, hg]
  · intro h2 h3
    simp [ExtractionEngine.resolveSchema, hg, h1, h2, h3]

/-- C4 witness: the amended behavior at a concrete registry and key. -/
theorem engineResolveSchema_spec_witness :
    ExtractionEngine.resolveSchema [("notes", SchemaClass.NotesExtraction)] "__unknown__" =
      .error "Unknown extraction type: __unknown__" :=
  (engineResolveSchema_spec [("notes", SchemaClass.NotesExtraction)] "__unknown__"
    (by decide)).2.2.2 (by decide) (by decide) (by decide)

/-- C9 counterexample: the empty backend name is not rejected as an unknown
backend: `backend_type or settings.storage_backend` treats it as missing and
silently falls back to the configured local backend. -/
theorem createStorage_empty_name_not_failfast :
    Storage.createStorage demoS3Env (some "") demoSettingsLocal =
      (.ok (CreatedBackend.localB "data"), 0) := rfl

/-- C9 (amended): the factory returns the local backend for `local`; every
unknown non-empty backend name fails fast with the unsupported-backend
error (the empty name falls back to the configured backend); and the `s3`
branch with no bucket name configured fails fast before `S3Storage` is
constructed, with zero network calls performed. -/
theorem createStorage_spec (env : S3Env) (s : Settings) (b : String)
    (hb1 : b ≠ "local") (hb2 : b ≠ "s3") (hb3 : b ≠ "") :
    Storage.createStorage env (some "local") s = (.ok (.localB s.data_dir), 0) ∧
    Storage.createStorage env (some b) s =
      (.error ("Unsupported storage backend: " ++ b), 0) ∧
    (s.s3_bucket_name = "" →
      Storage.createStorage env (some "s3") s =
        (.error "S3 bucket name is required when using S3 storage", 0)) ∧
    Storage.createStorage env (some "") s = Storage.createStorage env none s := by
  refine ⟨by simp [Storage.createStorage], ?_, ?_, ?_⟩
  · simp [Storage.createStorage, hb1, hb2, hb3]
  · intro hbucket
    simp [Storage.createStorage, hbucket]
  · simp [Storage.createStorage]

/-- C9 witness: the amended behavior at a concrete unknown backend name and
a configuration with no bucket name. -/
theorem createStorage_spec_witness :
    Storage.createStorage demoS3Env (some "gcs") demoSettingsLocal =
      (.error "Unsupported storage backend: gcs", 0) ∧
    Storage.createStorage demoS3Env (some "s3") demoSettingsLocal =
      (.error "S3 bucket name is required when using S3 storage", 0) := by
  have h := createStorage_spec demoS3Env demoSettingsLocal "gcs"
    (by decide) (by decide) (by decide)
  exact ⟨h.2.1, h.2.2.1 rfl⟩

set_option maxRecDepth 1000000 in
/-- C6 counterexample: a text artifact saved with the default directory is
stored under the `markdown/` namespace with the literal `markdown` type
segment in its filename — not under `text/` and not with the request
extraction type; the 8-hex segment is the sha256 of the content. -/
theorem text_artifact_markdown_namespace :
    (FileManager.saveMarkdown (localStorage "data") "local" "20240101_000000"
        "2024-01-01T00:00:00+00:00" "hello" none none none ⟨[], 0⟩).1 =
      .ok "data/markdown/markdown_2cf24dba_20240101_000000.md" ∧
    ContentScraper.strStartsWith "markdown/markdown_2cf24dba_20240101_000000.md" "text/" = false := by
  constructor
  · rfl
  · decide

/-- C6 (amended): text artifacts go to `markdown/` (or the caller-specified
directory) with filename `{prefix_}markdown_{hash8}_{timestamp}.md`, where
the type segment is the literal `markdown` and `hash8` is the first 8 hex
characters of the sha256 of the content alone (so identical content yields
an identical hash segment, filenames differing only in the timestamp);
structured artifacts go to `json/` as
`{prefix_}{extraction_type}_{hash8}_{timestamp}.json` wrapped in the
metadata/extracted_data envelope. -/
theorem artifact_layout_spec (content p ts tsIso tag et : String) (data : Json) (st : Store) :
    (p ≠ "" → FileManager.generateFilename (sha256hex content) et (some p) ".json" ts =
      p ++ "_" ++ et ++ "_" ++ (sha256hex content).take 8 ++ "_" ++ ts ++ ".json") ∧
    FileManager.generateFilename (sha256hex content) et none ".json" ts =
      et ++ "_" ++ (sha256hex content).take 8 ++ "_" ++ ts ++ ".json" ∧
    (∃ stem : String, ∀ ts2 : String,
      FileManager.generateFilename (sha256hex content) et (some p) ".json" ts2 =
        stem ++ ts2 ++ ".json") ∧
    (FileManager.saveMarkdown (localStorage "data") tag ts tsIso content none none none st).1 =
      .ok ("data/" ++ ("markdown/" ++
        FileManager.generateFilename (sha256hex content) "markdown" none ".md" ts)) ∧
    (FileManager.saveJson (localStorage "data") tag ts tsIso data content et none none st).1 =
      .ok ("data/" ++ ("json/" ++
        FileManager.generateFilename (sha256hex content) et none ".json" ts)) ∧
    (FileManager.saveJson (localStorage "data") tag ts tsIso data content et none none st).2.files =
      ("data/" ++ ("json/" ++ FileManager.generateFilename (sha256hex content) et none ".json" ts),
        FileData.json (FileManager.jsonEnvelope
          (FileManager.jsonMetadata et (sha256hex content) tsIso
            (FileManager.generateFilename (sha256hex content) et none ".json" ts) tag)
          data)) :: st.files := by
  refine ⟨?_, ?_, ?_, ?_, ?_, ?_⟩
  · intro hp
    simp [FileManager.generateFilename, joinWith, String.append_assoc, hp]
  · simp [FileManager.generateFilename, joinWith, String.append_assoc]
  · by_cases hp : p = ""
    · exact ⟨et ++ "_" ++ (sha256hex content).take 8 ++ "_", fun ts2 => by
        simp [FileManager.generateFilename, joinWith, String.append_assoc, hp]⟩
    · exact ⟨p ++ "_" ++ et ++ "_" ++ (sha256hex content).take 8 ++ "_", fun ts2 => by
        simp [FileManager.generateFilename, joinWith, String.append_assoc, hp]⟩
  · rfl
  · rfl
  · rfl

/-- C1: process_extraction is total (every outcome is an ExtractionResult):
extracted_data is present exactly on success, error_message is present
exactly on failure (so exactly one of the two is non-null), and whenever any
pipeline step raises, the caught error description becomes error_message. -/
theorem processExtraction_result_invariants (env : ExtractionService.ServiceEnv)
    (r : ExtractionRequest) (st : Store) :
    ((ExtractionService.processExtraction env r st).1.extracted_data.isSome ↔
      (ExtractionService.processExtraction env r st).1.success = true) ∧
    ((ExtractionService.processExtraction env r st).1.error_message.isSome ↔
      (ExtractionService.processExtraction env r st).1.success = false) ∧
    (∀ e, (ExtractionService.processCore env r st).1 = Except.error e →
      (ExtractionService.processExtraction env r st).1.error_message = some e ∧
      (ExtractionService.processExtraction env r st).1.success = false) := by
  rcases hc : ExtractionService.processCore env r st with ⟨e | k, st1⟩
  · refine ⟨?_, ?_, ?_⟩ <;>
      simp [ExtractionService.processExtraction, hc]
  · refine ⟨?_, ?_, ?_⟩ <;>
      simp [ExtractionService.processExtraction, hc]

/-- C10: when a text-input request with save_markdown persists its text
artifact and a later step raises — the structured extraction, or the
structured-artifact save — the failure result carries neither locator
(markdown_path and json_path are both null), and the pipeline deletes
nothing: the store is exactly what the last completed step left. -/
theorem failure_hides_saved_artifact (env : ExtractionService.ServiceEnv)
    (r : ExtractionRequest) (st : Store)
    (hty : r.input_type = InputType.text)
    (hsm : r.save_markdown = true) :
    (env.storage = localStorage "data" →
      ∀ e, env.extractStructured r.content r.extraction_type r.custom_instructions =
          .error e →
        (ExtractionService.processExtraction env r st).1.success = false ∧
        (ExtractionService.processExtraction env r st).1.error_message = some e ∧
        (ExtractionService.processExtraction env r st).1.markdown_path = none ∧
        (ExtractionService.processExtraction env r st).1.json_path = none ∧
        ∃ p fd, (ExtractionService.processExtraction env r st).2.files = (p, fd) :: st.files) ∧
    (∀ p st1 d u t e st2,
      FileManager.saveMarkdown env.storage env.backendTag env.ts env.tsIso
          r.content none r.output_directory r.filenamePrefix st = (.ok p, st1) →
      env.extractStructured r.content r.extraction_type r.custom_instructions = .ok (d, u, t) →
      r.save_json = true →
      FileManager.saveJson env.storage env.backendTag env.ts env.tsIso d r.content
          r.extraction_type r.output_directory r.filenamePrefix st1 = (.error e, st2) →
        (ExtractionService.processExtraction env r st).1.success = false ∧
        (ExtractionService.processExtraction env r st).1.error_message = some e ∧
        (ExtractionService.processExtraction env r st).1.markdown_path = none ∧
        (ExtractionService.processExtraction env r st).1.json_path = none ∧
        (ExtractionService.processExtraction env r st).2 = st2) := by
  constructor
  · intro hstore e hx
    obtain ⟨storage, tag, fetchC, extS, extI, ts, tsIso, tt⟩ := env
    simp only at hstore hx
    subst hstore
    refine ⟨?_, ?_, ?_, ?_, ?_⟩ <;>
      simp [ExtractionService.processExtraction, ExtractionService.processCore,
        ExtractionService.acquireStep, FileManager.saveMarkdown, localStorage,
        LocalStorage.saveFile, hty, hsm, hx]
  · intro p st1 d u t e st2 hmd hx hsj hjs
    obtain ⟨storage, tag, fetchC, extS, extI, ts, tsIso, tt⟩ := env
    simp only at hmd hx hjs
    refine ⟨?_, ?_, ?_, ?_, ?_⟩ <;>
      simp [ExtractionService.processExtraction, ExtractionService.processCore,
        ExtractionService.acquireStep, ExtractionService.saveJsonStep,
        hty, hsm, hsj, hmd, hx, hjs]

/-- C10 witness: the behavior at a concrete environment whose extraction
step fails after the text artifact was persisted. -/
theorem failure_hides_saved_artifact_witness :
    (ExtractionService.processExtraction demoEnvFail demoReqText ⟨[], 0⟩).1.success = false ∧
    (ExtractionService.processExtraction demoEnvFail demoReqText ⟨[], 0⟩).1.markdown_path = none ∧
    ∃ p fd, (ExtractionService.processExtraction demoEnvFail demoReqText ⟨[], 0⟩).2.files =
      [(p, fd)] := by
  have h := (failure_hides_saved_artifact demoEnvFail demoReqText ⟨[], 0⟩ rfl rfl).1
    rfl "boom" rfl
  exact ⟨h.1, h.2.2.1, h.2.2.2.2⟩

/-- A fresh temporary audio file name never equals a `data:audio` URI. -/
theorem tmpName_ne_data_audio (s : String) (n : Nat) (ext : String)
    (h : ContentScraper.strStartsWith s "data:audio" = true) :
    ContentScraper.tmpName n ext ≠ s := by
  intro he
  rw [← he] at h
  have h2 : (ContentScraper.tmpName n ext).data =
      '/' :: 't' :: 'm' :: 'p' :: '/' :: 't' :: 'm' :: 'p' :: ((toString n).data ++ ext.data) := by
    show ("/tmp/tmp" ++ toString n ++ ext).data = _
    rw [String.data_append, String.data_append]
    rfl
  unfold ContentScraper.strStartsWith at h
  rw [h2] at h
  simp [List.isPrefixOf] at h

/-- A path under the local `data` base directory never equals a fresh
temporary audio file name. -/
theorem local_path_ne_tmpName (fp : String) (n : Nat) (ext : String) :
    "data/" ++ fp ≠ ContentScraper.tmpName n ext := by
  intro he
  have hd := congrArg String.data he
  have h2 : (ContentScraper.tmpName n ext).data =
      '/' :: 't' :: 'm' :: 'p' :: '/' :: 't' :: 'm' :: 'p' :: ((toString n).data ++ ext.data) := by
    show ("/tmp/tmp" ++ toString n ++ ext).data = _
    rw [String.data_append, String.data_append]
    rfl
  rw [h2, String.data_append] at hd
  simp at hd

/-- C5 counterexample: an audio acquisition of a base64 data-URI payload that
fails with an empty transcript returns with the decoded temporary file still
present in the store — the cleanup does not run on the error path. -/
theorem audio_tempfile_leaks_on_failure :
    ContentScraper.processAudioWithWhisper demoAudioEnv
      "data:audio/wav;base64,AAAA" false none ⟨[], 0⟩ =
      (.error "No content extracted from audio",
        ⟨[("/tmp/tmp0.wav", FileData.bin)], 1⟩) ∧
    (Store.mk [("/tmp/tmp0.wav", FileData.bin)] 1).hasFile "/tmp/tmp0.wav" = true := by
  exact ⟨rfl, rfl⟩

/-- C5 (amended): an audio acquisition of a well-formed base64 data-URI
payload creates exactly one temporary file during decoding; on the success
path the file is deleted before the call returns (with or without the
markdown save), but when the call raises — transcription failure or empty
transcript — the temporary file still exists when the call returns. -/
theorem audio_tempfile_lifecycle (env : ContentScraper.AudioEnv)
    (audioInput hd payload : String) (st : Store)
    (hstore : env.storage = localStorage "data")
    (hda : ContentScraper.strStartsWith audioInput "data:audio" = true)
    (hnf : st.hasFile audioInput = false)
    (hsplit : ContentScraper.splitFirstComma audioInput = some (hd, payload))
    (hb64 : env.b64decode payload = some ()) :
    (ContentScraper.prepareAudioForOpenai env audioInput st =
      (.ok (ContentScraper.tmpName st.counter (ContentScraper.audioExt hd)),
        ⟨(ContentScraper.tmpName st.counter (ContentScraper.audioExt hd), FileData.bin) :: st.files,
          st.counter + 1⟩)) ∧
    (∀ e saveMd outDir,
      env.transcribe (ContentScraper.tmpName st.counter (ContentScraper.audioExt hd)) = .error e →
      ContentScraper.processAudioWithWhisper env audioInput saveMd outDir st =
        (.error e,
          ⟨(ContentScraper.tmpName st.counter (ContentScraper.audioExt hd), FileData.bin) :: st.files,
            st.counter + 1⟩)) ∧
    (∀ t saveMd outDir,
      env.transcribe (ContentScraper.tmpName st.counter (ContentScraper.audioExt hd)) = .ok t →
      pyStrip t = "" →
      ContentScraper.processAudioWithWhisper env audioInput saveMd outDir st =
        (.error "No content extracted from audio",
          ⟨(ContentScraper.tmpName st.counter (ContentScraper.audioExt hd), FileData.bin) :: st.files,
            st.counter + 1⟩)) ∧
    (∀ t outDir,
      env.transcribe (ContentScraper.tmpName st.counter (ContentScraper.audioExt hd)) = .ok t →
      pyStrip t ≠ "" →
      ContentScraper.processAudioWithWhisper env audioInput false outDir st =
        (.ok (pyStrip t, none), ⟨st.files, st.counter + 1⟩)) ∧
    (∀ t outDir,
      env.transcribe (ContentScraper.tmpName st.counter (ContentScraper.audioExt hd)) = .ok t →
      pyStrip t ≠ "" →
      ∃ mdPath fd,
        ContentScraper.processAudioWithWhisper env audioInput true outDir st =
          (.ok (pyStrip t, some mdPath), ⟨(mdPath, fd) :: st.files, st.counter + 1⟩)) := by
  obtain ⟨b64, trans, md5, storage, tag, ts, tsIso⟩ := env
  simp only at hstore hb64
  subst hstore
  have hne : ContentScraper.tmpName st.counter (ContentScraper.audioExt hd) ≠ audioInput :=
    tmpName_ne_data_audio audioInput st.counter (ContentScraper.audioExt hd) hda
  have hprep : ContentScraper.prepareAudioForOpenai
      ⟨b64, trans, md5, localStorage "data", tag, ts, tsIso⟩ audioInput st =
      (.ok (ContentScraper.tmpName st.counter (ContentScraper.audioExt hd)),
        ⟨(ContentScraper.tmpName st.counter (ContentScraper.audioExt hd), FileData.bin) :: st.files,
          st.counter + 1⟩) := by
    simp [ContentScraper.prepareAudioForOpenai, hnf, hda, hsplit, hb64]
  refine ⟨hprep, ?_, ?_, ?_, ?_⟩
  · intro e saveMd outDir htr
    simp only at htr
    simp [ContentScraper.processAudioWithWhisper, hprep, htr]
  · intro t saveMd outDir htr hts
    simp only at htr
    simp [ContentScraper.processAudioWithWhisper, hprep, htr, hts]
  · intro t outDir htr hts
    simp only at htr
    have hcont : (Store.mk
        ((ContentScraper.tmpName st.counter (ContentScraper.audioExt hd), FileData.bin) :: st.files)
        (st.counter + 1)).hasFile
        (ContentScraper.tmpName st.counter (ContentScraper.audioExt hd)) = true := by
      simp [Store.hasFile, Store.paths]
    simp [ContentScraper.processAudioWithWhisper, hprep, htr, hts, hne, hcont,
      List.eraseP_cons_of_pos]
  · intro t outDir htr hts
    simp only at htr
    have hu : ("audio_transcription_" ++ (md5 audioInput).take 8) ≠ "" := by
      intro he
      have hdd := congrArg String.data he
      rw [String.data_append] at hdd
      simp at hdd
    cases outDir with
    | none =>
      have hmdne := local_path_ne_tmpName
        ("markdown/" ++ FileManager.generateFilename (sha256hex t) "markdown"
          (some "audio_transcription") ".md" ts) st.counter (ContentScraper.audioExt hd)
      refine ⟨"data/" ++ ("markdown/" ++ FileManager.generateFilename (sha256hex t)
          "markdown" (some "audio_transcription") ".md" ts),
        FileData.text ("<!-- Source URL: " ++ ("audio_transcription_" ++ (md5 audioInput).take 8) ++
          " -->\n" ++ "<!-- Content Hash: " ++ sha256hex t ++ " -->\n" ++ "<!-- Saved: " ++ tsIso ++
          " -->\n" ++ "<!-- Storage Backend: " ++ tag ++ " -->\n\n" ++ t), ?_⟩
      simp only [localStorage, String.reduceAppend] at hprep
      simp [ContentScraper.processAudioWithWhisper, hprep, htr, hts,
        FileManager.saveMarkdown, localStorage, LocalStorage.saveFile, hne, hmdne, hu,
        Store.hasFile, Store.paths, List.eraseP_cons, FileManager.getContentHash]
    | some d =>
      by_cases hdir : d = ""
      · subst hdir
        have hmdne := local_path_ne_tmpName
          ("markdown/" ++ FileManager.generateFilename (sha256hex t) "markdown"
            (some "audio_transcription") ".md" ts) st.counter (ContentScraper.audioExt hd)
        refine ⟨"data/" ++ ("markdown/" ++ FileManager.generateFilename (sha256hex t)
            "markdown" (some "audio_transcription") ".md" ts),
          FileData.text ("<!-- Source URL: " ++ ("audio_transcription_" ++ (md5 audioInput).take 8) ++
            " -->\n" ++ "<!-- Content Hash: " ++ sha256hex t ++ " -->\n" ++ "<!-- Saved: " ++ tsIso ++
            " -->\n" ++ "<!-- Storage Backend: " ++ tag ++ " -->\n\n" ++ t), ?_⟩
        simp only [localStorage, String.reduceAppend] at hprep
        simp [ContentScraper.processAudioWithWhisper, hprep, htr, hts,
          FileManager.saveMarkdown, localStorage, LocalStorage.saveFile, hne, hmdne, hu,
          Store.hasFile, Store.paths, List.eraseP_cons, FileManager.getContentHash]
      · have hmdne := local_path_ne_tmpName
          (FileManager.dirNameOf d ++ "/" ++ FileManager.generateFilename (sha256hex t) "markdown"
            (some "audio_transcription") ".md" ts) st.counter (ContentScraper.audioExt hd)
        refine ⟨"data/" ++ (FileManager.dirNameOf d ++ "/" ++ FileManager.generateFilename
            (sha256hex t) "markdown" (some "audio_transcription") ".md" ts),
          FileData.text ("<!-- Source URL: " ++ ("audio_transcription_" ++ (md5 audioInput).take 8) ++
            " -->\n" ++ "<!-- Content Hash: " ++ sha256hex t ++ " -->\n" ++ "<!-- Saved: " ++ tsIso ++
            " -->\n" ++ "<!-- Storage Backend: " ++ tag ++ " -->\n\n" ++ t), ?_⟩
        simp only [localStorage, String.reduceAppend] at hprep
        simp [ContentScraper.processAudioWithWhisper, hprep, htr, hts,
          FileManager.saveMarkdown, localStorage, LocalStorage.saveFile, hne, hmdne, hu, hdir,
          Store.hasFile, Store.paths, List.eraseP_cons, FileManager.getContentHash]

/-- C5 witness: the amended lifecycle at a concrete data-URI payload — the
preparation step creates exactly one temporary file. -/
theorem audio_tempfile_lifecycle_witness :
    ContentScraper.prepareAudioForOpenai demoAudioEnv "data:audio/wav;base64,AAAA" ⟨[], 0⟩ =
      (.ok "/tmp/tmp0.wav", ⟨[("/tmp/tmp0.wav", FileData.bin)], 1⟩) := by
  have h := audio_tempfile_lifecycle demoAudioEnv "data:audio/wav;base64,AAAA"
    "data:audio/wav;base64" "AAAA" ⟨[], 0⟩ rfl rfl rfl rfl rfl
  exact h.1

end Extractor
